import Mathlib

/-!
Verification of the shipyard controller API gateway (controller/api/api.go):
the swarm route table with its version-prefixed aliases, the CORS wrapper,
the global request-mux mounting, the TLS-aware reverse-proxy forwarder, and
the exec/hijack terminal bridge.
-/

namespace Shipyard

/-- Request paths are modelled as lists of characters. -/
abbrev Path := List Char

/-- Boolean prefix test on character lists (model of a byte-wise prefix check). -/
def pfx : Path → Path → Bool
  | [], _ => true
  | _ :: _, [] => false
  | a :: as, b :: bs => a == b && pfx as bs

/-- Boolean equality test on character lists. -/
def eqL : Path → Path → Bool
  | [], [] => true
  | [], _ :: _ => false
  | _ :: _, [] => false
  | a :: as, b :: bs => a == b && eqL as bs

/-! ## Gorilla-mux style route patterns

A route string such as "/images/\x7bname:.*\x7d/json" is a sequence of literal
characters and brace-delimited captures. The swarm route table uses exactly
two capture regexes: the greedy ".*" and the version class "[0-9.]+". -/

/-- One token of a parsed route pattern: a literal character or a
brace-delimited capture carrying its raw spec text. -/
inductive PatTok
  | lit (c : Char)
  | capture (spec : List Char)
deriving DecidableEq, Repr

/-- Worker for route parsing: when the first argument is `some acc` we are
inside a brace-delimited capture and `acc` holds the spec read so far. -/
def parsePatAux : Option (List Char) → List Char → List PatTok
  | none, [] => []
  | none, c :: cs =>
    if c = '{' then parsePatAux (some []) cs
    else PatTok.lit c :: parsePatAux none cs
  | some _, [] => []
  | some acc, c :: cs =>
    if c = '}' then PatTok.capture acc :: parsePatAux none cs
    else parsePatAux (some (acc ++ [c])) cs

/-- Parse a route string (as characters) into pattern tokens. A brace opens a
capture that extends to the next closing brace. -/
def parsePat (l : List Char) : List PatTok := parsePatAux none l

/-- The regex part of a capture spec: everything after the first colon. -/
def specRegex (spec : List Char) : List Char :=
  (spec.dropWhile (fun c => c != ':')).drop 1

/-- The greedy capture regex ".*" as used in the swarm route table. -/
def starRegex : List Char := ['.', '*']

/-- The version capture regex "[0-9.]+" as used in the swarm route table. -/
def verRegex : List Char := ['[', '0', '-', '9', '.', ']', '+']

/-- Characters matched by the version regex class: digits and the dot. -/
def verChar (c : Char) : Bool := ('0' ≤ c && c ≤ '9') || c == '.'

/-- Pattern matching of a parsed route pattern against a request path.
A ".*" capture matches any (possibly empty) run of characters; a "[0-9.]+"
capture matches a nonempty run of digits and dots. -/
def patMatch : List PatTok → Path → Bool
  | [], [] => true
  | [], _ :: _ => false
  | .lit _ :: _, [] => false
  | .lit c :: ps, d :: ds => c == d && patMatch ps ds
  | .capture spec :: ps, cs =>
    if specRegex spec = starRegex then
      (List.range (cs.length + 1)).any fun k => patMatch ps (cs.drop k)
    else if specRegex spec = verRegex then
      (List.range cs.length).any fun k =>
        (cs.take (k + 1)).all verChar && patMatch ps (cs.drop (k + 1))
    else
      false

example : patMatch (parsePat "/images/\x7bname:.*\x7d/json".data) "/images/foo/bar/json".data = true := by decide

example : patMatch (parsePat "/v\x7bversion:[0-9.]+\x7d/info".data) "/v1.19/info".data = true := by decide

example : patMatch (parsePat "/v\x7bversion:[0-9.]+\x7d/info".data) "/vx/info".data = false := by decide

/-! ## The swarm route table and its registration (Api.Run)

The Go code iterates a map from method to (route, handler) pairs; every
handler in the map is the same forwarder `swarmRedirect`. For each pair the
loop builds one closure `wrap` (CORS write + forwarder) and registers it
twice: under the version-prefix pattern and under the bare route. -/

/-- The swarm route table, verbatim from Api.Run. Every route forwards to
swarmRedirect, so only method and route string are recorded. -/
def swarmTable : List (String × List String) :=
  [ ("GET",
     [ "/_ping", "/events", "/info", "/version", "/images/json",
       "/images/viz", "/images/search", "/images/get",
       "/images/\x7bname:.*\x7d/get", "/images/\x7bname:.*\x7d/history",
       "/images/\x7bname:.*\x7d/json", "/containers/ps", "/containers/json",
       "/containers/\x7bname:.*\x7d/export",
       "/containers/\x7bname:.*\x7d/changes",
       "/containers/\x7bname:.*\x7d/json", "/containers/\x7bname:.*\x7d/top",
       "/containers/\x7bname:.*\x7d/logs", "/containers/\x7bname:.*\x7d/stats",
       "/containers/\x7bname:.*\x7d/attach/ws",
       "/exec/\x7bexecid:.*\x7d/json" ]),
    ("POST",
     [ "/auth", "/commit", "/build", "/images/create", "/images/load",
       "/images/\x7bname:.*\x7d/push", "/images/\x7bname:.*\x7d/tag",
       "/containers/create", "/containers/\x7bname:.*\x7d/kill",
       "/containers/\x7bname:.*\x7d/pause",
       "/containers/\x7bname:.*\x7d/unpause",
       "/containers/\x7bname:.*\x7d/rename",
       "/containers/\x7bname:.*\x7d/restart",
       "/containers/\x7bname:.*\x7d/start", "/containers/\x7bname:.*\x7d/stop",
       "/containers/\x7bname:.*\x7d/wait", "/containers/\x7bname:.*\x7d/resize",
       "/containers/\x7bname:.*\x7d/attach", "/containers/\x7bname:.*\x7d/copy",
       "/containers/\x7bname:.*\x7d/exec", "/exec/\x7bexecid:.*\x7d/start",
       "/exec/\x7bexecid:.*\x7d/resize" ]),
    ("DELETE",
     [ "/containers/\x7bname:.*\x7d", "/images/\x7bname:.*\x7d" ]),
    ("OPTIONS", [ "" ]) ]

/-- The version-prefix pattern prepended to every route on its second
registration: "/v\x7bversion:[0-9.]+\x7d". -/
def versionPat : String := "/v\x7bversion:[0-9.]+\x7d"

/-- A handler value of the swarm router. Each loop iteration of Api.Run
creates exactly one `wrap` closure, identified here by the method and route
it captured; the closure also captures the forwarder and the CORS flag. -/
inductive SwarmHandler
  | wrap (method : String) (route : String)
deriving DecidableEq, Repr

/-- One registered route of the swarm router. -/
structure RouteEntry where
  pattern : String
  method : String
  handler : SwarmHandler
deriving DecidableEq, Repr

/-- The two registrations performed for one table entry: the version-prefixed
pattern first, then the bare route, both bound to the same `wrap` closure. -/
def registerRoute (method route : String) : List RouteEntry :=
  [ { pattern := versionPat ++ route, method := method,
      handler := SwarmHandler.wrap method route },
    { pattern := route, method := method,
      handler := SwarmHandler.wrap method route } ]

/-- All registrations performed by the route loop of Api.Run. -/
def swarmRouterEntries : List RouteEntry :=
  swarmTable.flatMap fun mr => mr.2.flatMap fun r => registerRoute mr.1 r

/-! ## CORS wrapping (writeCorsHeaders and the wrap closure) -/

/-- The three headers written by writeCorsHeaders, in source order. -/
def corsHeaders : List (String × String) :=
  [ ("Access-Control-Allow-Origin", "*"),
    ("Access-Control-Allow-Headers",
     "Origin, X-Requested-With, Content-Type, Accept"),
    ("Access-Control-Allow-Methods", "GET, POST, DELETE, PUT, OPTIONS") ]

/-- Observable steps of handling one request in the swarm router. -/
inductive HttpEvent
  | addHeader (key value : String)
  | runInner (method route : String)
deriving DecidableEq, Repr

/-- Behavior of the `wrap` closure: when CORS is enabled it first writes the
permissive headers, then runs the wrapped forwarder (whose own events are the
`inner` suffix, tagged by the iteration that created the closure). -/
def handlerRun (enableCors : Bool) : SwarmHandler → List HttpEvent → List HttpEvent
  | SwarmHandler.wrap m r, inner =>
    (if enableCors then corsHeaders.map fun kv => HttpEvent.addHeader kv.1 kv.2
     else []) ++ HttpEvent.runInner m r :: inner

/-! ## The global request mux (net/http ServeMux semantics)

Api.Run mounts handlers on a ServeMux: a pattern ending in a slash matches
every path it prefixes, any other pattern matches exactly, and the longest
matching pattern wins. -/

/-- The handlers mounted on the global mux of Api.Run. -/
inductive GHandler
  | staticFiles
  | apiAuth
  | accountAuth
  | loginRouter
  | hubRouter
  | swarmAuth
deriving DecidableEq, Repr

/-- Does a pattern end in a slash (ServeMux subtree pattern)? -/
def endsSlash : Path → Bool
  | [] => false
  | [c] => c == '/'
  | _ :: c :: cs => endsSlash (c :: cs)

/-- ServeMux pattern match: subtree patterns match by prefix, others exactly. -/
def muxPatternMatches (pat path : Path) : Bool :=
  if endsSlash pat then pfx pat path else eqL pat path

/-- Longest entry of a list of matching entries (ServeMux tie-breaking:
the longest registered pattern wins). -/
def bestOf : List (Path × GHandler) → Option (Path × GHandler)
  | [] => none
  | e :: rest =>
    match bestOf rest with
    | none => some e
    | some b => if e.1.length < b.1.length then some b else some e

/-- All patterns mounted on the global mux by Api.Run, with their handlers. -/
def globalMuxEntries : List (Path × GHandler) :=
  [ ("/".data, GHandler.staticFiles),
    ("/api/".data, GHandler.apiAuth),
    ("/account/".data, GHandler.accountAuth),
    ("/auth/".data, GHandler.loginRouter),
    ("/hub/".data, GHandler.hubRouter),
    ("/containers/".data, GHandler.swarmAuth),
    ("/_ping".data, GHandler.swarmAuth),
    ("/commit".data, GHandler.swarmAuth),
    ("/build".data, GHandler.swarmAuth),
    ("/events".data, GHandler.swarmAuth),
    ("/version".data, GHandler.swarmAuth),
    ("/images/".data, GHandler.swarmAuth),
    ("/exec/".data, GHandler.swarmAuth),
    ("/v1.17/".data, GHandler.swarmAuth),
    ("/v1.18/".data, GHandler.swarmAuth) ]

/-- ServeMux dispatch: the longest matching mounted pattern decides. -/
def muxDispatch (entries : List (Path × GHandler)) (path : Path) : Option GHandler :=
  (bestOf (entries.filter fun e => muxPatternMatches e.1 path)).map fun e => e.2

example : muxDispatch globalMuxEntries "/v1.18/info".data = some GHandler.swarmAuth := by decide

example : muxDispatch globalMuxEntries "/v1.19/info".data = some GHandler.staticFiles := by decide

example : muxDispatch globalMuxEntries "/containers/json".data = some GHandler.swarmAuth := by decide

/-! ## The reverse-proxy forwarder (swarmRedirect and transport selection)

Api.Run picks the scheme and forwarder transport once, from the Docker
client TLS configuration, before any request is served; swarmRedirect then
rewrites each request to the fixed target URL and relays it. -/

/-- Startup-time transport selection of Api.Run. -/
structure RunConfig where
  scheme : String
  fwdTLS : Bool
deriving DecidableEq, Repr

/-- The selection performed once in Api.Run: https plus a TLS round-tripper
when a TLS config is present, plain http otherwise. -/
def runSetup (tlsConfigured : Bool) : RunConfig :=
  if tlsConfigured then { scheme := "https://", fwdTLS := true }
  else { scheme := "http://", fwdTLS := false }

/-- Result of url.ParseRequestURI, abstracted. -/
inductive ParseResult
  | ok (u : String)
  | fail (msg : String)
deriving DecidableEq, Repr

/-- Outcome of one swarmRedirect invocation. -/
structure FwdResult where
  status : Nat
  errBody : Option String
  relayInvoked : Bool
  relayTarget : Option String
deriving DecidableEq, Repr

/-- One run of the swarmRedirect handler: rewrite the request target to the
startup-selected URL; on a parse failure answer 500 without relaying, else
relay to the rewritten target (the upstream decides the status). -/
def swarmRedirectRun (cfg : RunConfig) (host : String)
    (parse : String → ParseResult) (upstream : String → String → Nat)
    (reqPath : String) : FwdResult :=
  match parse (cfg.scheme ++ host) with
  | ParseResult.fail msg =>
    { status := 500, errBody := some msg, relayInvoked := false,
      relayTarget := none }
  | ParseResult.ok u =>
    { status := upstream u reqPath, errBody := none, relayInvoked := true,
      relayTarget := some u }

/-! ## The hijack engine (Api.hijack)

Api.hijack is modelled as the sequential trace of its main goroutine:
marshal the exec config, build the upgrade request, dial (TLS when the
Docker client carries a TLS config), set keep-alive when the connection is a
plain TCP connection, perform the upgrade handshake, take the raw socket,
spawn the two copy goroutines, then wait on the receiveStdout channel.
That channel is declared but never allocated (a nil channel), so when a
stdout or stderr sink is present the wait blocks forever and the deferred
closes of the raw socket and the client connection never execute. -/

/-- Observable events of one Api.hijack invocation. -/
inductive HEvent
  | dialTCP (addr : String)
  | dialTLS (addr : String)
  | setKeepAlive (seconds : Nat)
  | handshake
  | hijackSocket
  | sendStarted
  | spawnStdoutCopy (copies : Bool)
  | spawnStdinCopy (hasIn : Bool)
  | spawnPrintLoop
  | closeRwc
  | closeClientConn
deriving DecidableEq, Repr

/-- How one Api.hijack invocation terminates (or fails to). -/
inductive HijackOutcome
  | errMarshal
  | errNewRequest
  | errDial
  | blockedOnNilChannel
  | ok
deriving DecidableEq, Repr

/-- The arguments of Api.hijack that decide its control flow. -/
structure HijackArgs where
  addr : String
  method : String
  path : String
  setRawTerminal : Bool
  hasIn : Bool
  hasStdout : Bool
  hasStderr : Bool
  hasStarted : Bool
deriving DecidableEq, Repr

/-- Environment oracle for one Api.hijack invocation: whether the fallible
external steps succeed, and whether the Docker client has a TLS config. -/
structure HijackEnv where
  marshalOk : Bool
  newRequestOk : Bool
  dialOk : Bool
  tlsConfigured : Bool
deriving DecidableEq, Repr

/-- Sequential trace semantics of Api.hijack. Keep-alive is set only when
the connection is a plain TCP connection: a TLS connection fails the
type assertion and gets no keep-alive. With a stdout or stderr sink the
function ends blocked on the nil receiveStdout channel and the deferred
closes never run; without one it returns nil and the defers close the raw
socket and then the client connection. -/
def hijackRun (args : HijackArgs) (env : HijackEnv) : HijackOutcome × List HEvent :=
  if env.marshalOk = false then (HijackOutcome.errMarshal, [])
  else if env.newRequestOk = false then (HijackOutcome.errNewRequest, [])
  else
    let dialEv := if env.tlsConfigured then HEvent.dialTLS args.addr
                  else HEvent.dialTCP args.addr
    if env.dialOk = false then (HijackOutcome.errDial, [dialEv])
    else
      let kaEvs := if env.tlsConfigured then ([] : List HEvent)
                   else [HEvent.setKeepAlive 30]
      let evs1 := dialEv :: kaEvs ++ [HEvent.handshake, HEvent.hijackSocket]
      let evs2 := evs1 ++ (if args.hasStarted then [HEvent.sendStarted] else [])
      let evs3 := evs2 ++
        (if args.hasStdout || args.hasStderr then
          [HEvent.spawnStdoutCopy (args.setRawTerminal && args.hasStdout)]
         else [])
      let evs4 := evs3 ++ [HEvent.spawnStdinCopy args.hasIn]
      if args.hasStdout || args.hasStderr then
        (HijackOutcome.blockedOnNilChannel, evs4)
      else
        (HijackOutcome.ok,
         evs4 ++ [HEvent.spawnPrintLoop, HEvent.closeRwc, HEvent.closeClientConn])

/-! ## The terminal bridge (Api.execContainer)

execContainer reads the query parameters, posts the exec-create request to
the cluster manager, reads and unmarshals the response body (ignoring both
the response status and any unmarshal error), calls Api.hijack with the
websocket as input, stdout and stderr, and only after that call returns
successfully posts the resize request. -/

/-- Model of strings.Split with a one-character separator: splits at every
occurrence of the separator; the empty input yields one empty field. -/
def splitOnChar (sep : Char) : List Char → List (List Char)
  | [] => [[]]
  | c :: cs =>
    if c = sep then [] :: splitOnChar sep cs
    else
      match splitOnChar sep cs with
      | [] => [[c]]
      | r :: rs => (c :: r) :: rs

example : splitOnChar ',' "sh,-c,echo hi".data =
    ["sh".data, "-c".data, "echo hi".data] := by decide

example : splitOnChar ',' [] = [[]] := by decide

/-- The exec configuration marshalled into the create request body. -/
structure ExecConfig where
  attachStdin : Bool
  attachStdout : Bool
  attachStderr : Bool
  tty : Bool
  detach : Bool
  cmd : List (List Char)
deriving DecidableEq, Repr

/-- Query parameters of the exec websocket endpoint. -/
structure ExecQuery where
  id : String
  cmd : String
  w : String
  h : String
deriving DecidableEq, Repr

/-- Environment oracle for one execContainer invocation. `status` is the
HTTP status of the create response; the code never inspects it.
`unmarshalOk` tells whether the body parses as a session; on failure the
unmarshal error is discarded and the session id stays the zero value. -/
structure ExecEnv where
  scheme : String
  host : String
  cfgMarshalOk : Bool
  postOk : Bool
  readOk : Bool
  status : Nat
  unmarshalOk : Bool
  sessionId : String
  hijackEnv : HijackEnv
deriving DecidableEq, Repr

/-- Observable events of one execContainer invocation. -/
inductive BEvent
  | createPost (method url : String) (cfg : ExecConfig)
  | hijackCall (addr method path : String)
  | hijackEv (e : HEvent)
  | resizePost (url : String)
deriving DecidableEq, Repr

/-- The argument record of the hijack call made by execContainer: method
POST, input, stdout and stderr all bound to the websocket, raw terminal
mode, and a nil started channel. -/
def execHijackArgs (addr path : String) : HijackArgs :=
  { addr := addr, method := "POST", path := path, setRawTerminal := true,
    hasIn := true, hasStdout := true, hasStderr := true, hasStarted := false }

/-- The exec configuration built by execContainer: attach and tty all true,
command split from the cmd query parameter at commas. Detach is left at its
zero value. -/
def execCreateConfig (q : ExecQuery) : ExecConfig :=
  { attachStdin := true, attachStdout := true, attachStderr := true,
    tty := true, detach := false, cmd := splitOnChar ',' q.cmd.data }

/-- The create-request URL of execContainer:
scheme://host/containers/id/exec. -/
def execCreateUrl (q : ExecQuery) (env : ExecEnv) : String :=
  (env.scheme ++ "://" ++ env.host) ++ "/containers/" ++ q.id ++ "/exec"

/-- The session id after unmarshalling the create response: the unmarshal
error is discarded, so a body that does not parse leaves the zero value. -/
def execSessionId (env : ExecEnv) : String :=
  if env.unmarshalOk then env.sessionId else ""

/-- The start path handed to the hijack call. -/
def execStartPath (env : ExecEnv) : String :=
  "/exec/" ++ execSessionId env ++ "/start"

/-- The resize URL posted after the hijack call returns. -/
def execResizeUrl (q : ExecQuery) (env : ExecEnv) : String :=
  (env.scheme ++ "://" ++ env.host) ++ "/exec/" ++ execSessionId env ++
    "/resize?w=" ++ q.w ++ "&h=" ++ q.h

/-- Trace of execContainer up to and including the hijack call. -/
def execBaseTrace (q : ExecQuery) (env : ExecEnv) : List BEvent :=
  BEvent.createPost "POST" (execCreateUrl q env) (execCreateConfig q) ::
    BEvent.hijackCall env.host "POST" (execStartPath env) ::
    ((hijackRun (execHijackArgs env.host (execStartPath env))
        env.hijackEnv).2.map BEvent.hijackEv)

/-- Sequential trace semantics of Api.execContainer: marshal the config,
POST the create request, read the body, unmarshal (ignoring status and
unmarshal errors), call hijack, and only if the hijack call returns nil
post the resize request. -/
def execContainerRun (q : ExecQuery) (env : ExecEnv) : List BEvent :=
  if env.cfgMarshalOk = false then []
  else if env.postOk = false then
    [BEvent.createPost "POST" (execCreateUrl q env) (execCreateConfig q)]
  else if env.readOk = false then
    [BEvent.createPost "POST" (execCreateUrl q env) (execCreateConfig q)]
  else
    match (hijackRun (execHijackArgs env.host (execStartPath env))
        env.hijackEnv).1 with
    | HijackOutcome.ok =>
      execBaseTrace q env ++ [BEvent.resizePost (execResizeUrl q env)]
    | _ => execBaseTrace q env

/-! ## Helper lemmas about the hijack trace -/

/-- With a stdout sink, Api.hijack can never return nil: every run ends in
an early error or blocked on the nil receiveStdout channel. -/
lemma hijack_no_ok (args : HijackArgs) (env : HijackEnv)
    (h : args.hasStdout = true) : (hijackRun args env).1 ≠ HijackOutcome.ok := by
  unfold hijackRun
  cases hm : env.marshalOk <;> cases hr : env.newRequestOk <;>
    cases hd : env.dialOk <;> simp [h]

/-- With a stdout sink and a successful dial, the stdout-copy goroutine is
spawned. -/
lemma hijack_spawnStdout_mem (args : HijackArgs) (env : HijackEnv)
    (h : args.hasStdout = true) (hm : env.marshalOk = true)
    (hr : env.newRequestOk = true) (hd : env.dialOk = true) :
    HEvent.spawnStdoutCopy (args.setRawTerminal && args.hasStdout) ∈
      (hijackRun args env).2 := by
  unfold hijackRun
  cases ht : env.tlsConfigured <;> cases hs : args.hasStarted <;>
    simp [h, hm, hr, hd]

/-- C1: the claim requires that once relaying, closing either end closes the
other together with the buffered reader, and that the raw socket and
buffered reader are released exactly once on every exit path of Api.hijack.
The code violates this: with a stdout (or stderr) sink the function blocks
forever receiving from the nil receiveStdout channel after spawning the copy
goroutines, so it has no exit path at all and the deferred closes of the raw
socket and the client connection never run — the resources are released zero
times and neither end closing can trigger the other. -/
theorem c1_relaying_never_releases (args : HijackArgs) (env : HijackEnv)
    (hout : args.hasStdout = true) (hm : env.marshalOk = true)
    (hr : env.newRequestOk = true) (hd : env.dialOk = true) :
    (hijackRun args env).1 = HijackOutcome.blockedOnNilChannel ∧
    HEvent.spawnStdoutCopy (args.setRawTerminal && args.hasStdout) ∈
      (hijackRun args env).2 ∧
    HEvent.closeRwc ∉ (hijackRun args env).2 ∧
    HEvent.closeClientConn ∉ (hijackRun args env).2 := by
  refine ⟨?_, hijack_spawnStdout_mem args env hout hm hr hd, ?_, ?_⟩ <;>
    unfold hijackRun <;>
    cases ht : env.tlsConfigured <;> cases hs : args.hasStarted <;>
    simp [hout, hm, hr, hd]

/-- Witness for C1 at the arguments of the execContainer call with every
external step succeeding over plain TCP. -/
theorem c1_witness :
    (hijackRun (execHijackArgs "10.0.0.1:2375" "/exec/abc/start")
        { marshalOk := true, newRequestOk := true, dialOk := true,
          tlsConfigured := false }).1 = HijackOutcome.blockedOnNilChannel ∧
    HEvent.spawnStdoutCopy
        ((execHijackArgs "10.0.0.1:2375" "/exec/abc/start").setRawTerminal &&
         (execHijackArgs "10.0.0.1:2375" "/exec/abc/start").hasStdout) ∈
      (hijackRun (execHijackArgs "10.0.0.1:2375" "/exec/abc/start")
        { marshalOk := true, newRequestOk := true, dialOk := true,
          tlsConfigured := false }).2 ∧
    HEvent.closeRwc ∉
      (hijackRun (execHijackArgs "10.0.0.1:2375" "/exec/abc/start")
        { marshalOk := true, newRequestOk := true, dialOk := true,
          tlsConfigured := false }).2 ∧
    HEvent.closeClientConn ∉
      (hijackRun (execHijackArgs "10.0.0.1:2375" "/exec/abc/start")
        { marshalOk := true, newRequestOk := true, dialOk := true,
          tlsConfigured := false }).2 :=
  c1_relaying_never_releases _ _ rfl rfl rfl rfl

/-- C5 counterexample: the claim asserts keep-alive is enabled on every
successful hijack handshake regardless of TLS. With a TLS config the dialed
connection is a tls.Conn, the net.TCPConn type assertion fails, and no
keep-alive is ever set, even though the handshake succeeds and relaying
starts. -/
theorem c5_counterexample :
    HEvent.handshake ∈
      (hijackRun (execHijackArgs "10.0.0.1:2376" "/exec/abc/start")
        { marshalOk := true, newRequestOk := true, dialOk := true,
          tlsConfigured := true }).2 ∧
    HEvent.spawnStdoutCopy true ∈
      (hijackRun (execHijackArgs "10.0.0.1:2376" "/exec/abc/start")
        { marshalOk := true, newRequestOk := true, dialOk := true,
          tlsConfigured := true }).2 ∧
    HEvent.setKeepAlive 30 ∉
      (hijackRun (execHijackArgs "10.0.0.1:2376" "/exec/abc/start")
        { marshalOk := true, newRequestOk := true, dialOk := true,
          tlsConfigured := true }).2 := by
  refine ⟨by decide, by decide, by decide⟩

/-- C5 amended: keep-alive with the fixed 30-second probe interval is
enabled before the handshake and before any relaying whenever the dial is
plain TCP (no TLS configured); when TLS is configured the type assertion
fails and no keep-alive is set at all. -/
theorem c5_keepalive_tcp_only (args : HijackArgs) (env : HijackEnv)
    (hm : env.marshalOk = true) (hr : env.newRequestOk = true)
    (hd : env.dialOk = true) :
    (env.tlsConfigured = false →
      ∃ rest, (hijackRun args env).2 =
        HEvent.dialTCP args.addr :: HEvent.setKeepAlive 30 :: rest) ∧
    (env.tlsConfigured = true →
      HEvent.setKeepAlive 30 ∉ (hijackRun args env).2) := by
  constructor <;> intro ht <;> unfold hijackRun <;>
    cases hs : args.hasStarted <;>
    cases ho : args.hasStdout <;> cases he : args.hasStderr <;>
    simp [hm, hr, hd, ht]

/-- Witness for the amended C5 on a plain-TCP hijack with every external
step succeeding. -/
theorem c5_keepalive_witness :
    ∃ rest,
      (hijackRun (execHijackArgs "10.0.0.1:2375" "/exec/abc/start")
        { marshalOk := true, newRequestOk := true, dialOk := true,
          tlsConfigured := false }).2 =
        HEvent.dialTCP (execHijackArgs "10.0.0.1:2375" "/exec/abc/start").addr ::
          HEvent.setKeepAlive 30 :: rest :=
  (c5_keepalive_tcp_only _ _ rfl rfl rfl).1 rfl

/-- C7: the outbound transport is selected once at startup from the cluster
endpoint configuration. With a TLS config the scheme is https and the
forwarder carries the TLS round-tripper, otherwise http with a plain
transport; a hijack dial is a TLS dial exactly when the TLS config is
present; and the forwarder target of swarmRedirect is the startup-computed
URL, identical for every forwarded request — the selection is not
re-evaluated per request. -/
theorem c7_transport_selected_once :
    (runSetup true).scheme = "https://" ∧ (runSetup true).fwdTLS = true ∧
    (runSetup false).scheme = "http://" ∧ (runSetup false).fwdTLS = false ∧
    (∀ (args : HijackArgs) (env : HijackEnv),
      env.marshalOk = true → env.newRequestOk = true →
      (hijackRun args env).2.head? =
        some (if env.tlsConfigured then HEvent.dialTLS args.addr
              else HEvent.dialTCP args.addr)) ∧
    (∀ (cfg : RunConfig) (host : String) (parse : String → ParseResult)
       (upstream : String → String → Nat) (p1 p2 : String),
      (swarmRedirectRun cfg host parse upstream p1).relayTarget =
        (swarmRedirectRun cfg host parse upstream p2).relayTarget) ∧
    (∀ (tls : Bool) (host : String) (parse : String → ParseResult)
       (upstream : String → String → Nat) (p u : String),
      parse ((runSetup tls).scheme ++ host) = ParseResult.ok u →
      (swarmRedirectRun (runSetup tls) host parse upstream p).relayTarget =
        some u) := by
  refine ⟨rfl, rfl, rfl, rfl, ?_, ?_, ?_⟩
  · intro args env hm hr
    unfold hijackRun
    cases ht : env.tlsConfigured <;> cases hd : env.dialOk <;>
      cases hs : args.hasStarted <;>
      cases ho : args.hasStdout <;> cases he : args.hasStderr <;>
      simp [hm, hr]
  · intro cfg host parse upstream p1 p2
    unfold swarmRedirectRun
    cases parse (cfg.scheme ++ host) <;> rfl
  · intro tls host parse upstream p u hp
    unfold swarmRedirectRun
    rw [hp]

/-- Witness for C7 on the TLS side with a successful parse. -/
theorem c7_witness :
    (hijackRun (execHijackArgs "10.0.0.1:2376" "/exec/abc/start")
        { marshalOk := true, newRequestOk := true, dialOk := true,
          tlsConfigured := true }).2.head? =
      some (if ({ marshalOk := true, newRequestOk := true, dialOk := true,
                  tlsConfigured := true } : HijackEnv).tlsConfigured
            then HEvent.dialTLS
              (execHijackArgs "10.0.0.1:2376" "/exec/abc/start").addr
            else HEvent.dialTCP
              (execHijackArgs "10.0.0.1:2376" "/exec/abc/start").addr) ∧
    (swarmRedirectRun (runSetup true) "10.0.0.1:2376"
        (fun u => ParseResult.ok u) (fun _ _ => 200) "/info").relayTarget =
      some "https://10.0.0.1:2376" :=
  ⟨(c7_transport_selected_once.2.2.2.2.1) _ _ rfl rfl,
   (c7_transport_selected_once.2.2.2.2.2.2) true "10.0.0.1:2376"
     (fun u => ParseResult.ok u) (fun _ _ => 200) "/info"
     "https://10.0.0.1:2376" rfl⟩

/-- C8: when rewriting the request target to the cluster endpoint URL fails
to parse, swarmRedirect answers status 500 with only the error text and does
not invoke the relay, so no partial response body is written. -/
theorem c8_parse_failure_no_relay (cfg : RunConfig) (host : String)
    (parse : String → ParseResult) (upstream : String → String → Nat)
    (p msg : String) (h : parse (cfg.scheme ++ host) = ParseResult.fail msg) :
    swarmRedirectRun cfg host parse upstream p =
      { status := 500, errBody := some msg, relayInvoked := false,
        relayTarget := none } := by
  unfold swarmRedirectRun
  rw [h]

/-- Witness for C8 with a parser that rejects the rewritten URL. -/
theorem c8_witness :
    swarmRedirectRun (runSetup false) "bad host"
        (fun _ => ParseResult.fail "invalid URI") (fun _ _ => 200) "/info" =
      { status := 500, errBody := some "invalid URI", relayInvoked := false,
        relayTarget := none } :=
  c8_parse_failure_no_relay _ _ _ _ _ _ rfl

/-- C9: the session-creation request of the exec bridge is a POST to
endpoint/containers/id/exec whose body has AttachStdin, AttachStdout,
AttachStderr and Tty all true and whose command vector is the cmd query
parameter split on the comma delimiter. -/
theorem c9_exec_create_request (q : ExecQuery) (env : ExecEnv)
    (h : env.cfgMarshalOk = true) :
    execCreateUrl q env =
      (env.scheme ++ "://" ++ env.host) ++ "/containers/" ++ q.id ++ "/exec" ∧
    execCreateConfig q =
      { attachStdin := true, attachStdout := true, attachStderr := true,
        tty := true, detach := false,
        cmd := splitOnChar ',' q.cmd.data } ∧
    ∃ rest, execContainerRun q env =
      BEvent.createPost "POST" (execCreateUrl q env) (execCreateConfig q) ::
        rest := by
  refine ⟨rfl, rfl, ?_⟩
  unfold execContainerRun
  rw [if_neg (by simp [h])]
  by_cases hp : env.postOk = false
  · rw [if_pos hp]; exact ⟨[], rfl⟩
  · rw [if_neg hp]
    by_cases hr : env.readOk = false
    · rw [if_pos hr]; exact ⟨[], rfl⟩
    · rw [if_neg hr]
      split <;> exact ⟨_, rfl⟩

/-- Witness for C9 at the scenario query of the specification. -/
theorem c9_witness :
    execCreateUrl
        { id := "abc123", cmd := "sh,-c,echo hi", w := "80", h := "24" }
        { scheme := "http", host := "10.0.0.1:2375", cfgMarshalOk := true,
          postOk := true, readOk := true, status := 201, unmarshalOk := true,
          sessionId := "e90e34656806",
          hijackEnv := { marshalOk := true, newRequestOk := true,
                         dialOk := true, tlsConfigured := false } } =
      (("http" : String) ++ "://" ++ "10.0.0.1:2375") ++ "/containers/" ++
        "abc123" ++ "/exec" ∧
    execCreateConfig
        { id := "abc123", cmd := "sh,-c,echo hi", w := "80", h := "24" } =
      { attachStdin := true, attachStdout := true, attachStderr := true,
        tty := true, detach := false,
        cmd := splitOnChar ',' "sh,-c,echo hi".data } ∧
    ∃ rest,
      execContainerRun
        { id := "abc123", cmd := "sh,-c,echo hi", w := "80", h := "24" }
        { scheme := "http", host := "10.0.0.1:2375", cfgMarshalOk := true,
          postOk := true, readOk := true, status := 201, unmarshalOk := true,
          sessionId := "e90e34656806",
          hijackEnv := { marshalOk := true, newRequestOk := true,
                         dialOk := true, tlsConfigured := false } } =
      BEvent.createPost "POST"
        (execCreateUrl
          { id := "abc123", cmd := "sh,-c,echo hi", w := "80", h := "24" }
          { scheme := "http", host := "10.0.0.1:2375", cfgMarshalOk := true,
            postOk := true, readOk := true, status := 201,
            unmarshalOk := true, sessionId := "e90e34656806",
            hijackEnv := { marshalOk := true, newRequestOk := true,
                           dialOk := true, tlsConfigured := false } })
        (execCreateConfig
          { id := "abc123", cmd := "sh,-c,echo hi", w := "80", h := "24" }) ::
        rest :=
  c9_exec_create_request _ _ rfl

/-- C2 counterexample: the claim says a non-success status or an unparsable
body prevents the hijack step and any dial. Here the create response has
status 500 and a body that does not unmarshal, yet the hijack step is still
invoked — with the empty session id, so against /exec//start — and a raw
TCP socket is dialed. -/
theorem c2_counterexample :
    BEvent.hijackCall "10.0.0.1:2375" "POST" "/exec//start" ∈
      execContainerRun
        { id := "abc123", cmd := "sh,-c,echo hi", w := "80", h := "24" }
        { scheme := "http", host := "10.0.0.1:2375", cfgMarshalOk := true,
          postOk := true, readOk := true, status := 500, unmarshalOk := false,
          sessionId := "",
          hijackEnv := { marshalOk := true, newRequestOk := true,
                         dialOk := true, tlsConfigured := false } } ∧
    BEvent.hijackEv (HEvent.dialTCP "10.0.0.1:2375") ∈
      execContainerRun
        { id := "abc123", cmd := "sh,-c,echo hi", w := "80", h := "24" }
        { scheme := "http", host := "10.0.0.1:2375", cfgMarshalOk := true,
          postOk := true, readOk := true, status := 500, unmarshalOk := false,
          sessionId := "",
          hijackEnv := { marshalOk := true, newRequestOk := true,
                         dialOk := true, tlsConfigured := false } } := by
  refine ⟨by decide, by decide⟩

/-- C2 amended: only a network error on the create POST or a failure
reading the response body makes the bridge return before the hijack step —
then no hijack is invoked and nothing is dialed. A non-success status or an
unparsable body does not abort: the hijack step is invoked anyway, with the
zero-value (empty) session id when the body did not parse. -/
theorem c2_create_failure_paths (q : ExecQuery) (env : ExecEnv) :
    (env.postOk = false ∨ env.readOk = false →
      (∀ a m p, BEvent.hijackCall a m p ∉ execContainerRun q env) ∧
      ∀ e, BEvent.hijackEv e ∉ execContainerRun q env) ∧
    (env.cfgMarshalOk = true → env.postOk = true → env.readOk = true →
      env.unmarshalOk = false →
      BEvent.hijackCall env.host "POST" "/exec//start" ∈
        execContainerRun q env) := by
  constructor
  · intro h
    have htr : execContainerRun q env = [] ∨ execContainerRun q env =
        [BEvent.createPost "POST" (execCreateUrl q env) (execCreateConfig q)] := by
      unfold execContainerRun
      by_cases hcm : env.cfgMarshalOk = false
      · rw [if_pos hcm]; exact Or.inl rfl
      · rw [if_neg hcm]
        by_cases hp : env.postOk = false
        · rw [if_pos hp]; exact Or.inr rfl
        · rw [if_neg hp]
          rcases h with h | h
          · exact absurd h hp
          · rw [if_pos h]; exact Or.inr rfl
    rcases htr with htr | htr <;> rw [htr] <;> constructor <;> intro a <;> simp
  · intro hc hp hr hu
    have hsp : execStartPath env = "/exec//start" := by
      unfold execStartPath execSessionId
      rw [hu]
      rfl
    unfold execContainerRun
    rw [if_neg (by simp [hc]), if_neg (by simp [hp]), if_neg (by simp [hr])]
    split <;> simp [execBaseTrace, hsp]

/-- Witness for the amended C2 on a create POST that fails with a network
error. -/
theorem c2_create_failure_witness :
    (∀ a m p, BEvent.hijackCall a m p ∉
      execContainerRun
        { id := "abc123", cmd := "sh,-c,echo hi", w := "80", h := "24" }
        { scheme := "http", host := "10.0.0.1:2375", cfgMarshalOk := true,
          postOk := false, readOk := true, status := 0, unmarshalOk := false,
          sessionId := "",
          hijackEnv := { marshalOk := true, newRequestOk := true,
                         dialOk := true, tlsConfigured := false } }) ∧
    ∀ e, BEvent.hijackEv e ∉
      execContainerRun
        { id := "abc123", cmd := "sh,-c,echo hi", w := "80", h := "24" }
        { scheme := "http", host := "10.0.0.1:2375", cfgMarshalOk := true,
          postOk := false, readOk := true, status := 0, unmarshalOk := false,
          sessionId := "",
          hijackEnv := { marshalOk := true, newRequestOk := true,
                         dialOk := true, tlsConfigured := false } } :=
  (c2_create_failure_paths _ _).1 (Or.inl rfl)

/-- C3: the claim says the initial resize is issued immediately after the
Hijacked state and before any output is relayed. In the code the resize
POST is placed after the hijack call returns, and with the websocket bound
to stdout that call either fails before relaying or blocks forever on the
nil receiveStdout channel — so no resize request is ever issued on any
path, while on the successful path the stdout copy goroutine does start
relaying output. -/
theorem c3_resize_never_sent (q : ExecQuery) (env : ExecEnv) :
    (∀ u, BEvent.resizePost u ∉ execContainerRun q env) ∧
    (env.cfgMarshalOk = true → env.postOk = true → env.readOk = true →
      env.hijackEnv.marshalOk = true → env.hijackEnv.newRequestOk = true →
      env.hijackEnv.dialOk = true →
      BEvent.hijackEv (HEvent.spawnStdoutCopy true) ∈
        execContainerRun q env) := by
  constructor
  · intro u
    unfold execContainerRun
    by_cases hcm : env.cfgMarshalOk = false
    · rw [if_pos hcm]; simp
    · rw [if_neg hcm]
      by_cases hp : env.postOk = false
      · rw [if_pos hp]; simp
      · rw [if_neg hp]
        by_cases hr : env.readOk = false
        · rw [if_pos hr]; simp
        · rw [if_neg hr]
          split
          · next heq => exact absurd heq (hijack_no_ok _ _ rfl)
          · simp [execBaseTrace]
  · intro hc hp hr h1 h2 h3
    unfold execContainerRun
    rw [if_neg (by simp [hc]), if_neg (by simp [hp]), if_neg (by simp [hr])]
    have hmem := hijack_spawnStdout_mem
      (execHijackArgs env.host (execStartPath env)) env.hijackEnv rfl h1 h2 h3
    have hmem2 : BEvent.hijackEv (HEvent.spawnStdoutCopy true) ∈
        execBaseTrace q env := by
      unfold execBaseTrace
      exact List.mem_cons_of_mem _ (List.mem_cons_of_mem _
        (List.mem_map_of_mem _ hmem))
    split
    · exact List.mem_append.mpr (Or.inl hmem2)
    · exact hmem2

/-- Witness for C3 at the scenario input of the specification: exec bridge
for container abc123, command sh,-c,echo hi, width 80, height 24. -/
theorem c3_witness :
    BEvent.hijackEv (HEvent.spawnStdoutCopy true) ∈
      execContainerRun
        { id := "abc123", cmd := "sh,-c,echo hi", w := "80", h := "24" }
        { scheme := "http", host := "10.0.0.1:2375", cfgMarshalOk := true,
          postOk := true, readOk := true, status := 201, unmarshalOk := true,
          sessionId := "e90e34656806",
          hijackEnv := { marshalOk := true, newRequestOk := true,
                         dialOk := true, tlsConfigured := false } } ∧
    ∀ u, BEvent.resizePost u ∉
      execContainerRun
        { id := "abc123", cmd := "sh,-c,echo hi", w := "80", h := "24" }
        { scheme := "http", host := "10.0.0.1:2375", cfgMarshalOk := true,
          postOk := true, readOk := true, status := 201, unmarshalOk := true,
          sessionId := "e90e34656806",
          hijackEnv := { marshalOk := true, newRequestOk := true,
                         dialOk := true, tlsConfigured := false } } :=
  ⟨(c3_resize_never_sent _ _).2 rfl rfl rfl rfl rfl rfl,
   (c3_resize_never_sent _ _).1⟩

/-- C6: every registered swarm route (bare or version-prefixed) is bound to
a wrap closure; with CORS enabled its run writes the three permissive
headers — Access-Control-Allow-Origin: * first — strictly before the
wrapped forwarder executes, and with CORS disabled the wrapper adds no
header at all. -/
theorem c6_cors_wrapping :
    ∀ e ∈ swarmRouterEntries, ∀ inner : List HttpEvent, ∃ m r,
      e.handler = SwarmHandler.wrap m r ∧
      handlerRun true e.handler inner =
        HttpEvent.addHeader "Access-Control-Allow-Origin" "*" ::
        HttpEvent.addHeader "Access-Control-Allow-Headers"
          "Origin, X-Requested-With, Content-Type, Accept" ::
        HttpEvent.addHeader "Access-Control-Allow-Methods"
          "GET, POST, DELETE, PUT, OPTIONS" ::
        HttpEvent.runInner m r :: inner ∧
      handlerRun false e.handler inner = HttpEvent.runInner m r :: inner := by
  intro e _ inner
  cases h : e.handler with
  | wrap m r => exact ⟨m, r, rfl, rfl, rfl⟩

/-- Witness for C6 at the GET /info entry of the swarm route table. -/
theorem c6_witness :
    ∃ m r,
      ({ pattern := "/info", method := "GET",
         handler := SwarmHandler.wrap "GET" "/info" } : RouteEntry).handler =
        SwarmHandler.wrap m r ∧
      handlerRun true
          ({ pattern := "/info", method := "GET",
             handler := SwarmHandler.wrap "GET" "/info" } : RouteEntry).handler
          [] =
        HttpEvent.addHeader "Access-Control-Allow-Origin" "*" ::
        HttpEvent.addHeader "Access-Control-Allow-Headers"
          "Origin, X-Requested-With, Content-Type, Accept" ::
        HttpEvent.addHeader "Access-Control-Allow-Methods"
          "GET, POST, DELETE, PUT, OPTIONS" ::
        HttpEvent.runInner m r :: [] ∧
      handlerRun false
          ({ pattern := "/info", method := "GET",
             handler := SwarmHandler.wrap "GET" "/info" } : RouteEntry).handler
          [] =
        HttpEvent.runInner m r :: [] :=
  c6_cors_wrapping
    { pattern := "/info", method := "GET",
      handler := SwarmHandler.wrap "GET" "/info" } (by decide) []

/-! ## Version-prefixed aliases (C4) -/

/-- Matching a literal pattern character consumes one equal path character. -/
lemma patMatch_lit_cons (c : Char) (ps : List PatTok) (d : Char) (ds : Path) :
    patMatch (PatTok.lit c :: ps) (d :: ds) = (c == d && patMatch ps ds) := rfl

/-- Parsing the version-prefix pattern in front of any route yields the two
literal characters, the version capture, and then the parsed route. -/
lemma parsePat_versioned (route : List Char) :
    parsePat (versionPat.data ++ route) =
      PatTok.lit '/' :: PatTok.lit 'v' ::
        PatTok.capture "version:[0-9.]+".data :: parsePat route := rfl

/-- A version capture consumes any nonempty run of digits and dots in front
of a path matched by the remaining pattern. -/
lemma patMatch_ver_capture (ps : List PatTok) (version p : List Char)
    (hv : version ≠ []) (hall : version.all verChar = true)
    (hm : patMatch ps p = true) :
    patMatch (PatTok.capture "version:[0-9.]+".data :: ps) (version ++ p) =
      true := by
  have hpos : 0 < version.length := List.length_pos.mpr hv
  show (if specRegex "version:[0-9.]+".data = starRegex then
          (List.range ((version ++ p).length + 1)).any fun k =>
            patMatch ps ((version ++ p).drop k)
        else if specRegex "version:[0-9.]+".data = verRegex then
          (List.range (version ++ p).length).any fun k =>
            ((version ++ p).take (k + 1)).all verChar &&
              patMatch ps ((version ++ p).drop (k + 1))
        else false) = true
  rw [if_neg (by decide), if_pos (by decide), List.any_eq_true]
  refine ⟨version.length - 1, List.mem_range.mpr ?_, ?_⟩
  · rw [List.length_append]
    omega
  · rw [Nat.sub_add_cancel hpos, List.take_left, List.drop_left, hall, hm]
    rfl

/-- C4: each entry of the swarm route table is registered twice — once bare
and once under the version-prefix pattern — and both registrations carry the
same wrap closure; moreover any request path matching the bare route turns
into a match of the version-prefixed pattern when a dotted-numeric version
segment is inserted, so both aliases dispatch to that one shared handler. -/
theorem c4_versioned_alias_same_handler (method : String)
    (routes : List String) (route : String)
    (h1 : (method, routes) ∈ swarmTable) (h2 : route ∈ routes) :
    ({ pattern := versionPat ++ route, method := method,
       handler := SwarmHandler.wrap method route } : RouteEntry) ∈
      swarmRouterEntries ∧
    ({ pattern := route, method := method,
       handler := SwarmHandler.wrap method route } : RouteEntry) ∈
      swarmRouterEntries ∧
    ∀ (p version : List Char), version ≠ [] → version.all verChar = true →
      patMatch (parsePat route.data) p = true →
      patMatch (parsePat (versionPat ++ route).data)
        ('/' :: 'v' :: (version ++ p)) = true := by
  refine ⟨?_, ?_, ?_⟩
  · exact List.mem_flatMap.mpr ⟨(method, routes), h1,
      List.mem_flatMap.mpr ⟨route, h2, by simp [registerRoute]⟩⟩
  · exact List.mem_flatMap.mpr ⟨(method, routes), h1,
      List.mem_flatMap.mpr ⟨route, h2, by simp [registerRoute]⟩⟩
  · intro p version hv hall hm
    rw [String.data_append, parsePat_versioned, patMatch_lit_cons,
      patMatch_lit_cons]
    simp only [beq_self_eq_true, Bool.true_and]
    exact patMatch_ver_capture _ _ _ hv hall hm

/-- Witness for C4 at the DELETE container route with version 1.18 and a
concrete container path. -/
theorem c4_witness :
    ({ pattern := versionPat ++ "/containers/\x7bname:.*\x7d",
       method := "DELETE",
       handler := SwarmHandler.wrap "DELETE" "/containers/\x7bname:.*\x7d" } :
        RouteEntry) ∈ swarmRouterEntries ∧
    ({ pattern := "/containers/\x7bname:.*\x7d", method := "DELETE",
       handler := SwarmHandler.wrap "DELETE" "/containers/\x7bname:.*\x7d" } :
        RouteEntry) ∈ swarmRouterEntries ∧
    patMatch (parsePat (versionPat ++ "/containers/\x7bname:.*\x7d").data)
      ('/' :: 'v' :: ("1.18".data ++ "/containers/abc123".data)) = true := by
  have h := c4_versioned_alias_same_handler "DELETE"
    ["/containers/\x7bname:.*\x7d", "/images/\x7bname:.*\x7d"]
    "/containers/\x7bname:.*\x7d" (by decide) (by decide)
  exact ⟨h.1, h.2.1, h.2.2 "/containers/abc123".data "1.18".data
    (by decide) (by decide) (by decide)⟩

/-! ## The version-mount gap of the global mux (C10) -/

/-- Splitting a prefix test at the first slash: when neither side contains a
slash before it, the prefix holds exactly when the slash-free parts agree
and the remainders stay in the prefix relation. -/
lemma pfx_split : ∀ (ys xs bs cs : List Char), (∀ y ∈ ys, y ≠ '/') →
    (∀ x ∈ xs, x ≠ '/') →
    (pfx (ys ++ '/' :: bs) (xs ++ '/' :: cs) = true ↔
      ys = xs ∧ pfx bs cs = true)
  | [], [], bs, cs, _, _ => by simp [pfx]
  | [], x :: xs1, bs, cs, _, hx => by
    have hx1 : ¬('/' = x) := fun h => hx x (List.mem_cons_self x xs1) h.symm
    simp [pfx, Bool.and_eq_true, beq_iff_eq, hx1]
  | y :: ys1, [], bs, cs, hy, _ => by
    have hy1 : ¬(y = '/') := hy y (List.mem_cons_self y ys1)
    simp [pfx, Bool.and_eq_true, beq_iff_eq, hy1]
  | y :: ys1, x :: xs1, bs, cs, hy, hx => by
    have ih := pfx_split ys1 xs1 bs cs
      (fun a ha => hy a (List.mem_cons_of_mem _ ha))
      (fun a ha => hx a (List.mem_cons_of_mem _ ha))
    simp only [List.cons_append, pfx, Bool.and_eq_true, beq_iff_eq, ih,
      List.cons.injEq]
    tauto

/-- Version characters are digits and dots, never a slash. -/
lemma verChar_mem_ne_slash (l : List Char) (hall : l.all verChar = true) :
    ∀ x ∈ l, x ≠ '/' := by
  intro x hx heq
  subst heq
  exact absurd (List.all_eq_true.mp hall '/' hx) (by decide)

/-- C10: the swarm router itself registers /info under a version pattern
matching any dotted-numeric version, but the global mux mounts the swarm
router only at the fixed prefixes /v1.17/ and /v1.18/ (besides the bare
prefixes), so a request for any other version of /info falls through to the
root static-files handler and never reaches the swarm router. -/
theorem c10_version_mount_gap (version : List Char) (h1 : version ≠ [])
    (h2 : version.all verChar = true) (h3 : version ≠ "1.17".data)
    (h4 : version ≠ "1.18".data) :
    muxDispatch globalMuxEntries ('/' :: 'v' :: (version ++ "/info".data)) =
      some GHandler.staticFiles ∧
    patMatch (parsePat (versionPat ++ "/info").data)
      ('/' :: 'v' :: (version ++ "/info".data)) = true := by
  constructor
  · cases version with
    | nil => exact absurd rfl h1
    | cons c vs =>
      have hnos : ∀ x ∈ c :: vs, x ≠ '/' := verChar_mem_ne_slash _ h2
      have hc : verChar c = true :=
        List.all_eq_true.mp h2 c (List.mem_cons_self c vs)
      have hce : ('e' == c) = false := by
        rw [Bool.eq_false_iff]
        intro hb
        have hec : 'e' = c := beq_iff_eq.mp hb
        rw [← hec] at hc
        exact absurd hc (by decide)
      have m11 : muxPatternMatches "/version".data
          ('/' :: 'v' :: c :: (vs ++ "/info".data)) = false := by
        show (('e' == c) && eqL "rsion".data (vs ++ "/info".data)) = false
        rw [hce]
        rfl
      have m14 : muxPatternMatches "/v1.17/".data
          ('/' :: 'v' :: c :: (vs ++ "/info".data)) = false := by
        show pfx ("1.17".data ++ '/' :: []) ((c :: vs) ++ '/' :: "info".data) =
          false
        rw [Bool.eq_false_iff]
        intro hb
        obtain ⟨heq, _⟩ := (pfx_split "1.17".data (c :: vs) [] "info".data
          (by decide) hnos).mp hb
        exact h3 heq.symm
      have m15 : muxPatternMatches "/v1.18/".data
          ('/' :: 'v' :: c :: (vs ++ "/info".data)) = false := by
        show pfx ("1.18".data ++ '/' :: []) ((c :: vs) ++ '/' :: "info".data) =
          false
        rw [Bool.eq_false_iff]
        intro hb
        obtain ⟨heq, _⟩ := (pfx_split "1.18".data (c :: vs) [] "info".data
          (by decide) hnos).mp hb
        exact h4 heq.symm
      show muxDispatch globalMuxEntries
        ('/' :: 'v' :: c :: (vs ++ "/info".data)) = some GHandler.staticFiles
      unfold muxDispatch globalMuxEntries
      rw [List.filter_cons, List.filter_cons, List.filter_cons,
        List.filter_cons, List.filter_cons, List.filter_cons,
        List.filter_cons, List.filter_cons, List.filter_cons,
        List.filter_cons, List.filter_cons, List.filter_cons,
        List.filter_cons, List.filter_cons, List.filter_cons,
        List.filter_nil]
      simp only [m11, m14, m15]
      rfl
  · rw [String.data_append, parsePat_versioned, patMatch_lit_cons,
      patMatch_lit_cons]
    simp only [beq_self_eq_true, Bool.true_and]
    exact patMatch_ver_capture _ _ _ h1 h2 (by decide)

/-- Witness for C10 at version 1.19: the swarm version pattern matches
/v1.19/info but the global mux sends it to the static file server. -/
theorem c10_witness :
    muxDispatch globalMuxEntries ('/' :: 'v' :: ("1.19".data ++ "/info".data)) =
      some GHandler.staticFiles ∧
    patMatch (parsePat (versionPat ++ "/info").data)
      ('/' :: 'v' :: ("1.19".data ++ "/info".data)) = true :=
  c10_version_mount_gap "1.19".data (by decide) (by decide) (by decide)
    (by decide)

end Shipyard
